import Mathlib

/-!
# Verification of the w24h activity-tracking and retrieval core

Shallow embedding of the episode segmentation state machine and the
two-stage semantic retrieval pipeline of the `w24h` repository, with
proofs of the specified properties.

Sources embedded:
* the episode segmentation logic (documented in
  `backend/MONGODB_SETUP.md` and spec §4.1; the FastAPI `main.py`
  implementing it is not part of the source tree, so it is modelled
  from the spec and the in-repo documentation),
* the query route `POST /query` (`src/routes/query.ts`),
* the episode and frame creation routes (`src/routes/episodes.ts`,
  `src/routes/frames.ts`),
* the cosine-similarity ranking and reranking orchestration
  (documented in `TECHNICAL_SPECIFICATIONS.md`,
  `SEMANTIC_SEARCH_IMPLEMENTATION.md`; implemented in the backend's
  `llm_runner.py`, not part of the source tree, so modelled from the
  spec).
-/

namespace W24h

/-! ## Episode segmentation -/

/-- One activity event: a tracked source reports the active application
(`key`, the grouping key) at a timestamp, together with the frame id of
the capture. -/
structure SegEvent where
  sourceId : Nat
  ts : Nat
  key : String
  frameId : Nat
deriving DecidableEq, Repr

/-- An episode as produced by segmentation: a maximal run of frames
sharing one grouping key.  `frames` stores `(sourceId, frameId)` pairs
in insertion order; the episode's `frame_count` is `frames.length`.
`isOpen = true` models a null `end_ts` marker (episode still open). -/
structure Episode where
  id : Nat
  key : String
  startTs : Nat
  endTs : Nat
  frames : List (Nat × Nat)
  isOpen : Bool
deriving DecidableEq, Repr

/-- State of the deployed segmentation backend.  Modelled from the spec:
the FastAPI segmentation handler (`main.py`) is not under the source
tree; `MONGODB_SETUP.md` documents that "Global variables
`last_app_name` and `current_episode_id` are used for tracking", i.e.
the grouping state is one process-wide pair, not keyed by source. -/
structure BackendState where
  lastApp : Option String
  currentEpisode : Option Episode
  closed : List Episode
  nextId : Nat
deriving DecidableEq, Repr

def backendInit : BackendState := ⟨none, none, [], 0⟩

/-- Modelled from the spec: one step of the deployed backend segmenter
(`main.py`, absent from the source tree), per `MONGODB_SETUP.md`'s
documented logic — if the event's app name matches the process-wide
`last_app_name`, extend the current episode (append frame, advance
`end_ts`); otherwise close the current episode and open a new one.  No
`source_id` enters the decision. -/
def backendObserve (st : BackendState) (e : SegEvent) : BackendState :=
  if st.lastApp = some e.key then
    match st.currentEpisode with
    | some ep =>
        let ep' := { ep with endTs := e.ts, frames := ep.frames ++ [(e.sourceId, e.frameId)] }
        { st with currentEpisode := some ep' }
    | none =>
        { st with lastApp := some e.key,
                  currentEpisode := some ⟨st.nextId, e.key, e.ts, e.ts, [(e.sourceId, e.frameId)], true⟩,
                  nextId := st.nextId + 1 }
  else
    let closedNow : List Episode :=
      match st.currentEpisode with
      | some ep => st.closed ++ [{ ep with isOpen := false }]
      | none => st.closed
    { lastApp := some e.key,
      currentEpisode := some ⟨st.nextId, e.key, e.ts, e.ts, [(e.sourceId, e.frameId)], true⟩,
      closed := closedNow,
      nextId := st.nextId + 1 }

def backendRun (events : List SegEvent) : BackendState :=
  events.foldl backendObserve backendInit

/-- All episodes (closed ones followed by the open one, if any). -/
def backendEpisodes (st : BackendState) : List Episode :=
  st.closed ++ (match st.currentEpisode with | some ep => [ep] | none => [])

/-- The episodes of a backend run that own at least one frame of source `s`. -/
def episodesOwning (s : Nat) (st : BackendState) : List Episode :=
  (backendEpisodes st).filter (fun ep => ep.frames.any (fun f => f.1 == s))

/-- Segmentation failure: the monotone-timestamp precondition of
`observe` was violated for a source. -/
inductive SegError where
  | outOfOrderEvent
deriving DecidableEq, Repr

/-- Per-source segmentation state: the currently open episode (if any)
and the last timestamp observed for this source. -/
structure SrcState where
  openEp : Option Episode
  lastTs : Option Nat
deriving DecidableEq, Repr

/-- Spec-faithful segmenter state: an explicit map from `source_id` to
per-source segmentation state (spec §4.1/§9), plus the closed episodes
and a fresh-id counter. -/
structure SegState where
  sources : List (Nat × SrcState)
  closed : List Episode
  nextId : Nat
deriving DecidableEq, Repr

def segInit : SegState := ⟨[], [], 0⟩

def getSrc (st : SegState) (s : Nat) : SrcState :=
  match st.sources.find? (fun p => p.1 == s) with
  | some p => p.2
  | none => ⟨none, none⟩

def setSrc (st : SegState) (s : Nat) (v : SrcState) : SegState :=
  if st.sources.any (fun p => p.1 == s) then
    { st with sources := st.sources.map (fun p => if p.1 == s then (s, v) else p) }
  else
    { st with sources := st.sources ++ [(s, v)] }

/-- The mutation step of `observe` (spec §4.1 steps 1–3), run only after
the timestamp precondition has been checked: open a fresh episode when
none is open, extend the open episode on a matching grouping key, and on
a differing key close the open episode — freezing its `end_ts` at its
last observed timestamp — and open a new one.  Returns the new state and
the id of the episode that now owns the frame. -/
def observeStep (st : SegState) (e : SegEvent) (src : SrcState) : SegState × Nat :=
  match src.openEp with
  | none =>
      let ep : Episode := ⟨st.nextId, e.key, e.ts, e.ts, [(e.sourceId, e.frameId)], true⟩
      ({ setSrc st e.sourceId ⟨some ep, some e.ts⟩ with nextId := st.nextId + 1 }, st.nextId)
  | some ep =>
      if ep.key = e.key then
        let ep' := { ep with endTs := e.ts, frames := ep.frames ++ [(e.sourceId, e.frameId)] }
        (setSrc st e.sourceId ⟨some ep', some e.ts⟩, ep.id)
      else
        let newEp : Episode := ⟨st.nextId, e.key, e.ts, e.ts, [(e.sourceId, e.frameId)], true⟩
        let st' := { st with closed := st.closed ++ [{ ep with isOpen := false }],
                             nextId := st.nextId + 1 }
        (setSrc st' e.sourceId ⟨some newEp, some e.ts⟩, st.nextId)

/-- Modelled from the spec: `observe(source_id, timestamp, grouping_key,
frame_id) -> episode_id` (spec §4.1; the segmenter implementation is not
under the source tree).  A timestamp below a prior timestamp of the same
source is rejected with `OutOfOrderEvent` before any mutation. -/
def observe (st : SegState) (e : SegEvent) : Except SegError (SegState × Nat) :=
  match (getSrc st e.sourceId).lastTs with
  | some lt =>
      if e.ts < lt then .error .outOfOrderEvent
      else .ok (observeStep st e (getSrc st e.sourceId))
  | none => .ok (observeStep st e (getSrc st e.sourceId))

/-- `observe` as run by the serving layer: a rejected event leaves the
state exactly as it was (the error is surfaced, nothing is mutated). -/
def observeTotal (st : SegState) (e : SegEvent) : SegState × Option SegError :=
  match observe st e with
  | .ok (st', _) => (st', none)
  | .error err => (st, some err)

def runSeg (events : List SegEvent) : Except SegError SegState :=
  events.foldlM (fun st e => (observe st e).map Prod.fst) segInit

/-- All episodes of a spec-segmenter state: closed episodes followed by
each source's open episode. -/
def segEpisodes (st : SegState) : List Episode :=
  st.closed ++ st.sources.filterMap (fun p => p.2.openEp)

/-! ## Document model (`src/types.ts`) -/

/-- The `tags` object of an episode (`types.ts`, `EpisodeDocument`). -/
structure Tags where
  project : Option String
  app : Option String
  url : Option String
  branch : Option String
  error_keywords : Option (List String)
deriving DecidableEq, Repr

def Tags.empty : Tags := ⟨none, none, none, none, none⟩

/-- An `episodes`-collection document (`types.ts`, `EpisodeDocument`).
Timestamps are millisecond integers; `created_at`/`updated_at` dates are
modelled as naturals; embedding vectors are rational-valued. -/
structure EpisodeDoc where
  episode_id : String
  start_ts : Nat
  end_ts : Nat
  title : String
  summary_text : String
  tags : Tags
  frame_ids : List String
  text_embedding : Option (List ℚ)
  created_at : Nat
  updated_at : Nat
deriving DecidableEq, Repr

/-- A `frames`-collection document (`types.ts`, `FrameDocument`). -/
structure FrameDoc where
  frame_id : String
  episode_id : String
  ts : Nat
  s3_key : Option String
  url : Option String
  caption : Option String
  image_embedding : Option (List ℚ)
  created_at : Nat
  updated_at : Nat
deriving DecidableEq, Repr

/-! ## Query route (`src/routes/query.ts`) -/

/-- One element of the `$vectorSearch` + `$project` pipeline output:
the projected episode fields together with the `vectorSearchScore`. -/
structure ScoredDoc where
  episode_id : String
  title : String
  summary_text : String
  start_ts : Nat
  end_ts : Nat
  tags : Tags
  frame_ids : List String
  score : ℚ
deriving DecidableEq, Repr

/-- One element of the query response's `results` array
(`types.ts`, `QueryEpisodesResult`); `score` is absent on the
text-search fallback path. -/
structure QueryResult where
  episode_id : String
  title : String
  summary_text : String
  start_ts : Nat
  end_ts : Nat
  tags : Tags
  frame_ids : List String
  score : Option ℚ
deriving DecidableEq, Repr

/-- Responses of `POST /query`: the 500 sent when the query embedding
cannot be generated, and the 200 carrying results, their count, and the
optional degradation `warning`. -/
inductive QueryResponse where
  | embedFailure (msg : String)
  | ok (results : List QueryResult) (count : Nat) (warning : Option String)
deriving DecidableEq, Repr

def QueryResponse.status : QueryResponse → Nat
  | .embedFailure _ => 500
  | .ok _ _ _ => 200

def QueryResponse.results : QueryResponse → List QueryResult
  | .embedFailure _ => []
  | .ok rs _ _ => rs

def QueryResponse.warning : QueryResponse → Option String
  | .embedFailure _ => none
  | .ok _ _ w => w

/-- A response is marked degraded exactly when it carries a `warning`. -/
def QueryResponse.degraded (r : QueryResponse) : Bool :=
  r.warning.isSome

def isPrefOf : List Char → List Char → Bool
  | [], _ => true
  | _ :: _, [] => false
  | a :: as, b :: bs => a == b && isPrefOf as bs

def containsSub (needle : List Char) : List Char → Bool
  | [] => needle.isEmpty
  | c :: t => isPrefOf needle (c :: t) || containsSub needle t

/-- Case-insensitive substring test: the semantics of Mongo
`{ $regex: query, $options: 'i' }` when `query` is plain text (no regex
metacharacters), as used by the text-search fallback in `query.ts`. -/
def containsI (pat s : String) : Bool :=
  containsSub pat.toLower.data s.toLower.data

/-- The text-search fallback of `POST /query` (`query.ts`): episodes
whose `title` or `summary_text` matches the query case-insensitively,
restricted to documents with non-null `text_embedding`, limited to
`lim`. -/
def textSearchFallback (db : List EpisodeDoc) (q : String) (lim : Nat) : List EpisodeDoc :=
  (db.filter (fun e =>
    (containsI q e.title || containsI q e.summary_text) && e.text_embedding.isSome)).take lim

/-- The optional `$match: { score: { $gte: min_score } }` pipeline stage
of `query.ts`: present exactly when `min_score` was supplied. -/
def minScoreMatch (minScore : Option ℚ) (docs : List ScoredDoc) : List ScoredDoc :=
  match minScore with
  | some m => docs.filter (fun d => m ≤ d.score)
  | none => docs

/-- Descending-score order on scored documents. -/
def scoreGE (a b : ScoredDoc) : Prop := b.score ≤ a.score

instance : DecidableRel scoreGE := fun a b => inferInstanceAs (Decidable (b.score ≤ a.score))

instance : IsTotal ScoredDoc scoreGE := ⟨fun a b => le_total b.score a.score⟩

instance : IsTrans ScoredDoc scoreGE := ⟨fun _ _ _ hab hbc => le_trans hbc hab⟩

/-- Modelled from the spec: the `$vectorSearch` stage itself executes
inside MongoDB Atlas (an external collaborator); per its contract and
spec §4.2 it returns the best-scoring candidates sorted by similarity
score descending, truncated to the stage's `limit`. -/
def atlasVectorSearch (cands : List ScoredDoc) (lim : Nat) : List ScoredDoc :=
  (List.insertionSort scoreGE cands).take lim

def EpisodeDoc.toTextResult (e : EpisodeDoc) : QueryResult :=
  ⟨e.episode_id, e.title, e.summary_text, e.start_ts, e.end_ts, e.tags, e.frame_ids, none⟩

def ScoredDoc.toResult (d : ScoredDoc) : QueryResult :=
  ⟨d.episode_id, d.title, d.summary_text, d.start_ts, d.end_ts, d.tags, d.frame_ids, some d.score⟩

/-- `POST /query` (`src/routes/query.ts`) after schema validation.
External effects are passed as explicit functions: `embed` is the
Embedding Capability call `embedText`, `vsearch` is the aggregate call
running the `$vectorSearch` pipeline.  On embedding failure the request
fails with the 500 `Failed to generate query embedding` response (the
spec's `EmbeddingUnavailable`); on vector-search failure it falls back
to the bounded text search and sets the degradation warning. -/
def queryRoute (embed : String → Except String (List ℚ))
    (vsearch : List ℚ → Except String (List ScoredDoc))
    (db : List EpisodeDoc) (q : String) (lim : Nat) (minScore : Option ℚ) : QueryResponse :=
  match embed q with
  | .error msg => .embedFailure msg
  | .ok qv =>
    match vsearch qv with
    | .ok docs =>
        let eps := (minScoreMatch minScore docs).map ScoredDoc.toResult
        .ok eps eps.length none
    | .error _ =>
        let eps := (textSearchFallback db q lim).map EpisodeDoc.toTextResult
        .ok eps eps.length (some "Vector search unavailable, using text search fallback")

/-! ## Episode and frame creation (`src/routes/episodes.ts`, `src/routes/frames.ts`) -/

/-- Validated input of `POST /episodes` (`types.ts`,
`CreateEpisodeSchema`): `episode_id`, `tags` and `frame_ids` are
optional. -/
structure CreateEpisodeInput where
  episode_id : Option String
  start_ts : Nat
  end_ts : Nat
  title : String
  summary_text : String
  tags : Option Tags
  frame_ids : Option (List String)
deriving DecidableEq, Repr

/-- Validated input of `POST /frames` (`types.ts`, `CreateFrameSchema`). -/
structure CreateFrameInput where
  frame_id : Option String
  episode_id : String
  ts : Nat
  s3_key : Option String
  url : Option String
  caption : Option String
deriving DecidableEq, Repr

/-- Responses of the creation routes: 409 on a duplicate id, 404 on a
missing referenced episode, 201 on success (carrying the created id). -/
inductive CreateResponse where
  | conflict (msg : String)
  | notFound (msg : String)
  | created (id : String)
deriving DecidableEq, Repr

def CreateResponse.status : CreateResponse → Nat
  | .conflict _ => 409
  | .notFound _ => 404
  | .created _ => 201

/-- `POST /episodes` (`src/routes/episodes.ts`) after schema validation.
`genId` stands for the `uuidv4()` call, `now` for `new Date()`, `embed`
for the Embedding Capability call `embedText`.  The duplicate-id check
runs first; the embedding call is wrapped in try/catch — on failure the
episode is stored with `text_embedding = null` and creation still
succeeds. -/
def createEpisode (db : List EpisodeDoc) (genId : String)
    (embed : String → Except String (List ℚ)) (now : Nat)
    (input : CreateEpisodeInput) : CreateResponse × List EpisodeDoc :=
  let eid := input.episode_id.getD genId
  if db.any (fun e => e.episode_id == eid) then
    (.conflict "Episode with this episode_id already exists", db)
  else
    let emb : Option (List ℚ) :=
      match embed (input.title ++ "\n\n" ++ input.summary_text) with
      | .ok v => some v
      | .error _ => none
    let doc : EpisodeDoc :=
      ⟨eid, input.start_ts, input.end_ts, input.title, input.summary_text,
        input.tags.getD Tags.empty, input.frame_ids.getD [], emb, now, now⟩
    (.created eid, db ++ [doc])

/-- Mongo `$addToSet`: append the element unless already present. -/
def addToSet (l : List String) (x : String) : List String :=
  if l.contains x then l else l ++ [x]

/-- `POST /frames` (`src/routes/frames.ts`) after schema validation.
The route first verifies the referenced episode exists (404 when not),
then rejects a duplicate `frame_id` (409), else inserts the frame with
`image_embedding = null` and updates the episode's `frame_ids`
(`$addToSet`) and `updated_at`. -/
def createFrame (frames : List FrameDoc) (episodes : List EpisodeDoc)
    (genId : String) (now : Nat)
    (input : CreateFrameInput) : CreateResponse × List FrameDoc × List EpisodeDoc :=
  if episodes.any (fun e => e.episode_id == input.episode_id) then
    let fid := input.frame_id.getD genId
    if frames.any (fun f => f.frame_id == fid) then
      (.conflict "Frame with this frame_id already exists", frames, episodes)
    else
      let frame : FrameDoc :=
        ⟨fid, input.episode_id, input.ts, input.s3_key, input.url, input.caption, none, now, now⟩
      let episodes' := episodes.map (fun e =>
        if e.episode_id == input.episode_id then
          { e with frame_ids := addToSet e.frame_ids fid, updated_at := now }
        else e)
      (.created fid, frames ++ [frame], episodes')
  else
    (.notFound "Episode not found", frames, episodes)

/-! ## Reranking orchestration -/

/-- A candidate as ranked by the Similarity Ranker: its id, the textual
document representation handed to the Reranking Capability, and its
similarity score. -/
structure RankedCand where
  id : String
  docText : String
  score : ℚ
deriving DecidableEq, Repr

/-- Modelled from the spec: the Reranking Orchestrator
(`get_relevant_context` in the backend's `llm_runner.py`, which is not
under the source tree; spec §4.3 and `PERFORMANCE_OPTIMIZATIONS`).  It
takes the top `min(finalLimit * mult, cap)` candidates of the
similarity order, invokes the Reranking Capability, reorders by the
returned indices on success, and on any capability error falls back to
the Similarity Ranker's original order truncated to `finalLimit`. -/
def rerank (queryText : String) (ranked : List RankedCand) (finalLimit cap mult : Nat)
    (capability : String → List String → Nat → Except String (List (Nat × ℚ))) :
    List RankedCand :=
  let cands := ranked.take (min (finalLimit * mult) cap)
  match capability queryText (cands.map (fun c => c.docText)) finalLimit with
  | .ok rr => (rr.filterMap (fun p => cands[p.1]?)).take finalLimit
  | .error _ => ranked.take finalLimit

/-! ## Cosine similarity -/

/-- Dot product of two vectors (componentwise product, truncating to the
shorter vector, as Python's `zip` does). -/
def dotp (a b : List ℝ) : ℝ :=
  (List.zipWith (fun x y => x * y) a b).sum

/-- Euclidean magnitude of a vector. -/
noncomputable def mag (v : List ℝ) : ℝ :=
  Real.sqrt (dotp v v)

/-- Modelled from the spec: `cosine_similarity` (the backend's
`llm_runner.py` helper, not under the source tree; spec §4.2 and
`TECHNICAL_SPECIFICATIONS.md`): `dot(q, c) / (||q|| * ||c||)`, with the
guard that a zero-magnitude argument yields `0` instead of dividing by
zero.  Real-valued: floats are modelled as reals.  The function is
total — it never raises. -/
noncomputable def cosineSim (a b : List ℝ) : ℝ :=
  if mag a = 0 ∨ mag b = 0 then 0 else dotp a b / (mag a * mag b)

/-- Componentwise negation of a vector. -/
def negVec (v : List ℝ) : List ℝ :=
  v.map (fun x => -x)

/-! ## Helper lemmas -/

lemma dotp_nil_left (b : List ℝ) : dotp [] b = 0 := by
  simp [dotp]

lemma dotp_cons (x y : ℝ) (xs ys : List ℝ) :
    dotp (x :: xs) (y :: ys) = x * y + dotp xs ys := by
  simp [dotp]

lemma dotp_self_nonneg (v : List ℝ) : 0 ≤ dotp v v := by
  induction v with
  | nil => simp [dotp]
  | cons x xs ih =>
      rw [dotp_cons]
      nlinarith [mul_self_nonneg x]

lemma dotp_comm (a b : List ℝ) : dotp a b = dotp b a := by
  induction a generalizing b with
  | nil => cases b <;> simp [dotp]
  | cons x xs ih =>
      cases b with
      | nil => simp [dotp]
      | cons y ys => rw [dotp_cons, dotp_cons, mul_comm, ih]

lemma dotp_negVec_right (a b : List ℝ) : dotp a (negVec b) = -dotp a b := by
  induction a generalizing b with
  | nil => simp [dotp]
  | cons x xs ih =>
      cases b with
      | nil => simp [dotp, negVec]
      | cons y ys =>
          show dotp (x :: xs) (-y :: ys.map (fun t => -t)) = -dotp (x :: xs) (y :: ys)
          rw [dotp_cons, dotp_cons, show List.map (fun t : ℝ => -t) ys = negVec ys from rfl,
            ih ys]
          ring

lemma dotp_negVec_left (a b : List ℝ) : dotp (negVec a) b = -dotp a b := by
  rw [dotp_comm, dotp_negVec_right, dotp_comm]

lemma dotp_self_pos (v : List ℝ) (h : ∃ x ∈ v, x ≠ 0) : 0 < dotp v v := by
  induction v with
  | nil => simp at h
  | cons x xs ih =>
      rw [dotp_cons]
      rcases h with ⟨y, hy, hy0⟩
      rcases List.mem_cons.mp hy with rfl | hmem
      · nlinarith [dotp_self_nonneg xs, mul_self_pos.mpr hy0]
      · nlinarith [mul_self_nonneg x, ih ⟨y, hmem, hy0⟩]

lemma mag_sq (v : List ℝ) : mag v * mag v = dotp v v :=
  Real.mul_self_sqrt (dotp_self_nonneg v)

lemma mag_eq_zero_iff (v : List ℝ) : mag v = 0 ↔ dotp v v = 0 :=
  Real.sqrt_eq_zero (dotp_self_nonneg v)

lemma mag_negVec (v : List ℝ) : mag (negVec v) = mag v := by
  unfold mag
  rw [dotp_negVec_left, dotp_negVec_right, neg_neg]

/-! ## Claim theorems -/

/-- Claim C1 (code bug): the claim requires segmentation state keyed per
tracked source, so that each source's episodes equal those of processing
its events alone.  The deployed backend keeps one process-wide
`last_app_name`/`current_episode_id` pair, so interleaving a second
source corrupts the first source's episode boundaries: on the
interleaving `[(s1,t=0,"A"), (s2,t=1,"B"), (s1,t=2,"A")]` source 1's
frames end up split across two episodes, while processing source 1's
events alone yields one episode. -/
theorem c1_global_segmentation_state_diverges :
    episodesOwning 1 (backendRun [⟨1, 0, "A", 1⟩, ⟨2, 1, "B", 2⟩, ⟨1, 2, "A", 3⟩]) ≠
      episodesOwning 1 (backendRun [⟨1, 0, "A", 1⟩, ⟨1, 2, "A", 3⟩]) := by
  decide

/-- Claim C2: the single-source event sequence
`[(t=0, "Chrome"), (t=10, "Chrome"), (t=20, "Editor")]` produces exactly
two episodes — `Chrome` with `start_ts = 0`, `end_ts = 10` (frozen at
the last observed timestamp of the episode, not at the new event's
timestamp) and two frames, then `Editor` with `start_ts = end_ts = 20`,
one frame, still open.  `frame_count` is the length of the `frames`
list. -/
theorem c2_scenarioA_two_episodes :
    (runSeg [⟨1, 0, "Chrome", 1⟩, ⟨1, 10, "Chrome", 2⟩, ⟨1, 20, "Editor", 3⟩]).map segEpisodes =
      .ok [⟨0, "Chrome", 0, 10, [(1, 1), (1, 2)], false⟩,
           ⟨1, "Editor", 20, 20, [(1, 3)], true⟩] := by
  rfl

/-- Claim C3: if the Reranking Capability raises on every call, the
rerank operation's output equals the Similarity Ranker's original order
truncated to `finalLimit`; `rerank` is a total function, so the overall
retrieval does not fail. -/
theorem c3_rerank_fallback (queryText : String) (ranked : List RankedCand)
    (finalLimit cap mult : Nat)
    (capability : String → List String → Nat → Except String (List (Nat × ℚ)))
    (h : ∀ s d k, ∃ e, capability s d k = .error e) :
    rerank queryText ranked finalLimit cap mult capability = ranked.take finalLimit := by
  obtain ⟨e, he⟩ :=
    h queryText (((ranked.take (min (finalLimit * mult) cap)).map (fun c => c.docText))) finalLimit
  simp only [rerank]
  rw [he]

/-- Witness for C3 at a concrete always-failing capability. -/
theorem c3_rerank_fallback_w :
    (∀ s d k, ∃ e, (fun (_ : String) (_ : List String) (_ : Nat) =>
        (Except.error "timeout" : Except String (List (Nat × ℚ)))) s d k = .error e) ∧
    rerank "query" [⟨"a", "doc a", 9/10⟩, ⟨"b", "doc b", 8/10⟩, ⟨"c", "doc c", 7/10⟩] 2 20 2
        (fun _ _ _ => .error "timeout") =
      List.take 2 [⟨"a", "doc a", 9/10⟩, ⟨"b", "doc b", 8/10⟩, ⟨"c", "doc c", 7/10⟩] :=
  ⟨fun _ _ _ => ⟨"timeout", rfl⟩,
   c3_rerank_fallback "query" _ 2 20 2 _ (fun _ _ _ => ⟨"timeout", rfl⟩)⟩

/-- Claim C4: when the embedding call fails, `POST /query` fails closed
with the embedding-unavailable error response (HTTP 500, no
keyword-search tier runs): the result set is empty and the response is
never marked degraded. -/
theorem c4_embed_failure_fails_closed (embed : String → Except String (List ℚ))
    (vsearch : List ℚ → Except String (List ScoredDoc)) (db : List EpisodeDoc)
    (q : String) (lim : Nat) (minScore : Option ℚ) (msg : String)
    (h : embed q = .error msg) :
    queryRoute embed vsearch db q lim minScore = .embedFailure msg ∧
    (queryRoute embed vsearch db q lim minScore).status = 500 ∧
    (queryRoute embed vsearch db q lim minScore).results = [] ∧
    (queryRoute embed vsearch db q lim minScore).degraded = false := by
  simp [queryRoute, h, QueryResponse.status, QueryResponse.results, QueryResponse.degraded,
    QueryResponse.warning]

/-- Witness for C4 at a concrete rate-limited embedding capability. -/
theorem c4_embed_failure_fails_closed_w :
    (fun (_ : String) => (Except.error "RateLimited" : Except String (List ℚ))) "q" =
      .error "RateLimited" ∧
    (queryRoute (fun _ => .error "RateLimited") (fun _ => .ok []) [] "q" 10 none =
        .embedFailure "RateLimited" ∧
      (queryRoute (fun _ => .error "RateLimited") (fun _ => .ok []) [] "q" 10 none).status = 500 ∧
      (queryRoute (fun _ => .error "RateLimited") (fun _ => .ok []) [] "q" 10 none).results = [] ∧
      (queryRoute (fun _ => .error "RateLimited") (fun _ => .ok []) [] "q" 10 none).degraded =
        false) :=
  ⟨rfl, c4_embed_failure_fails_closed _ _ _ _ _ _ _ rfl⟩

/-- Claim C5: when the query embedding succeeds but the vector-search
path fails, the query still succeeds: the results are the bounded
case-insensitive substring match over episode title and summary text,
restricted to episodes with non-null embeddings and limited to the
request limit (`textSearchFallback`), and the response carries the
degradation warning. -/
theorem c5_vector_failure_degrades (embed : String → Except String (List ℚ))
    (vsearch : List ℚ → Except String (List ScoredDoc)) (db : List EpisodeDoc)
    (q : String) (lim : Nat) (minScore : Option ℚ) (qv : List ℚ) (msg : String)
    (h1 : embed q = .ok qv) (h2 : vsearch qv = .error msg) :
    queryRoute embed vsearch db q lim minScore =
      .ok ((textSearchFallback db q lim).map EpisodeDoc.toTextResult)
        ((textSearchFallback db q lim).map EpisodeDoc.toTextResult).length
        (some "Vector search unavailable, using text search fallback") ∧
    (queryRoute embed vsearch db q lim minScore).degraded = true := by
  simp [queryRoute, h1, h2, QueryResponse.degraded, QueryResponse.warning]

/-- Witness for C5: a concrete store where the vector search fails and
the substring fallback selects the matching embedded episode. -/
theorem c5_vector_failure_degrades_w :
    (fun (_ : String) => (Except.ok [(1 : ℚ)] : Except String (List ℚ))) "chrome" = .ok [(1 : ℚ)] ∧
    (fun (_ : List ℚ) => (Except.error "no index" : Except String (List ScoredDoc))) [(1 : ℚ)] =
      .error "no index" ∧
    (queryRoute (fun _ => .ok [(1 : ℚ)]) (fun _ => .error "no index")
        [⟨"e1", 0, 1, "Chrome session", "browsing", Tags.empty, [], some [(1 : ℚ)], 0, 0⟩,
         ⟨"e2", 2, 3, "Editor", "coding", Tags.empty, [], some [(1 : ℚ)], 0, 0⟩]
        "chrome" 10 none =
      .ok ((textSearchFallback
            [⟨"e1", 0, 1, "Chrome session", "browsing", Tags.empty, [], some [(1 : ℚ)], 0, 0⟩,
             ⟨"e2", 2, 3, "Editor", "coding", Tags.empty, [], some [(1 : ℚ)], 0, 0⟩]
            "chrome" 10).map EpisodeDoc.toTextResult)
        ((textSearchFallback
            [⟨"e1", 0, 1, "Chrome session", "browsing", Tags.empty, [], some [(1 : ℚ)], 0, 0⟩,
             ⟨"e2", 2, 3, "Editor", "coding", Tags.empty, [], some [(1 : ℚ)], 0, 0⟩]
            "chrome" 10).map EpisodeDoc.toTextResult).length
        (some "Vector search unavailable, using text search fallback") ∧
      (queryRoute (fun _ => .ok [(1 : ℚ)]) (fun _ => .error "no index")
        [⟨"e1", 0, 1, "Chrome session", "browsing", Tags.empty, [], some [(1 : ℚ)], 0, 0⟩,
         ⟨"e2", 2, 3, "Editor", "coding", Tags.empty, [], some [(1 : ℚ)], 0, 0⟩]
        "chrome" 10 none).degraded = true) :=
  ⟨rfl, rfl, c5_vector_failure_degrades _ _ _ _ _ _ _ _ rfl rfl⟩

/-- Claim C6: cosine similarity satisfies `sim(v, v) = 1` for non-zero
`v`, `sim(v, -v) = -1`, symmetry `sim(a, b) = sim(b, a)`, and yields `0`
whenever either argument has zero magnitude; being a total function it
never raises. -/
theorem c6_cosineSim_props (v a b c d : List ℝ)
    (hv : ∃ x ∈ v, x ≠ 0) (hc : mag c = 0) :
    cosineSim v v = 1 ∧ cosineSim v (negVec v) = -1 ∧
    cosineSim a b = cosineSim b a ∧ cosineSim c d = 0 ∧ cosineSim d c = 0 := by
  have hdv : 0 < dotp v v := dotp_self_pos v hv
  have hmv : mag v ≠ 0 := by
    rw [Ne, mag_eq_zero_iff]
    exact ne_of_gt hdv
  refine ⟨?_, ?_, ?_, ?_, ?_⟩
  · rw [cosineSim, if_neg (by tauto), mag_sq]
    exact div_self (ne_of_gt hdv)
  · rw [cosineSim, if_neg (by rw [mag_negVec]; tauto), mag_negVec, mag_sq, dotp_negVec_right,
      neg_div]
    rw [div_self (ne_of_gt hdv)]
  · by_cases h : mag a = 0 ∨ mag b = 0
    · rw [cosineSim, if_pos h, cosineSim, if_pos h.symm]
    · rw [cosineSim, if_neg h, cosineSim, if_neg (fun hh => h hh.symm), dotp_comm,
        mul_comm (mag b) (mag a)]
  · rw [cosineSim, if_pos (Or.inl hc)]
  · rw [cosineSim, if_pos (Or.inr hc)]

/-- Witness for C6 at concrete vectors. -/
theorem c6_cosineSim_props_w :
    (∃ x ∈ [(1 : ℝ), 0], x ≠ 0) ∧ mag [(0 : ℝ)] = 0 ∧
    (cosineSim [(1 : ℝ), 0] [(1 : ℝ), 0] = 1 ∧
      cosineSim [(1 : ℝ), 0] (negVec [(1 : ℝ), 0]) = -1 ∧
      cosineSim [(2 : ℝ)] [(3 : ℝ)] = cosineSim [(3 : ℝ)] [(2 : ℝ)] ∧
      cosineSim [(0 : ℝ)] [(5 : ℝ)] = 0 ∧ cosineSim [(5 : ℝ)] [(0 : ℝ)] = 0) :=
  have h1 : ∃ x ∈ [(1 : ℝ), 0], x ≠ 0 := ⟨1, by simp⟩
  have h2 : mag [(0 : ℝ)] = 0 := by
    simp [mag, dotp]
  ⟨h1, h2, c6_cosineSim_props [(1 : ℝ), 0] [(2 : ℝ)] [(3 : ℝ)] [(0 : ℝ)] [(5 : ℝ)] h1 h2⟩

/-- Claim C7: the `min_score` filter keeps a candidate of the vector
search output iff its score is at least `min_score`, survivors stay in
descending score order, and the concrete scenario — candidates scored
`[0.95, 0.80, 0.92]` with `min_score = 0.9` — yields exactly the scores
`[0.95, 0.92]` in that order. -/
theorem c7_min_score_filter (cands : List ScoredDoc) (lim : Nat) (m : ℚ) :
    (∀ e, e ∈ minScoreMatch (some m) (atlasVectorSearch cands lim) ↔
        e ∈ atlasVectorSearch cands lim ∧ m ≤ e.score) ∧
    List.Sorted scoreGE (minScoreMatch (some m) (atlasVectorSearch cands lim)) ∧
    (minScoreMatch (some (9/10)) (atlasVectorSearch
        [⟨"e1", "", "", 0, 0, Tags.empty, [], 95/100⟩,
         ⟨"e2", "", "", 0, 0, Tags.empty, [], 80/100⟩,
         ⟨"e3", "", "", 0, 0, Tags.empty, [], 92/100⟩] 10)).map (fun e => e.score) =
      [95/100, 92/100] := by
  refine ⟨?_, ?_, ?_⟩
  · intro e
    simp [minScoreMatch, List.mem_filter]
  · have hs : List.Sorted scoreGE (atlasVectorSearch cands lim) :=
      List.Pairwise.sublist (List.take_sublist _ _) (List.sorted_insertionSort scoreGE cands)
    exact List.Pairwise.sublist (List.filter_sublist _) hs
  · norm_num [atlasVectorSearch, minScoreMatch, scoreGE, List.insertionSort, List.orderedInsert]

/-- Claim C8: an `observe` call whose timestamp is below a previously
observed timestamp of the same source is rejected with
`OutOfOrderEvent`, and the state — in particular the source's open
episode — is left completely unchanged. -/
theorem c8_out_of_order_rejected (st : SegState) (e : SegEvent) (lt : Nat)
    (h1 : (getSrc st e.sourceId).lastTs = some lt) (h2 : e.ts < lt) :
    observe st e = .error .outOfOrderEvent ∧
    observeTotal st e = (st, some .outOfOrderEvent) := by
  simp [observe, observeTotal, h1, h2]

/-- Witness for C8: a source whose last observed timestamp is 10 rejects
an event at timestamp 5, leaving its open episode untouched. -/
theorem c8_out_of_order_rejected_w :
    (getSrc ⟨[(1, ⟨some ⟨0, "A", 10, 10, [(1, 1)], true⟩, some 10⟩)], [], 1⟩
        (SegEvent.mk 1 5 "A" 2).sourceId).lastTs = some 10 ∧
    (SegEvent.mk 1 5 "A" 2).ts < 10 ∧
    (observe ⟨[(1, ⟨some ⟨0, "A", 10, 10, [(1, 1)], true⟩, some 10⟩)], [], 1⟩ ⟨1, 5, "A", 2⟩ =
        .error .outOfOrderEvent ∧
      observeTotal ⟨[(1, ⟨some ⟨0, "A", 10, 10, [(1, 1)], true⟩, some 10⟩)], [], 1⟩ ⟨1, 5, "A", 2⟩ =
        (⟨[(1, ⟨some ⟨0, "A", 10, 10, [(1, 1)], true⟩, some 10⟩)], [], 1⟩,
          some .outOfOrderEvent)) :=
  ⟨rfl, by decide, c8_out_of_order_rejected _ _ 10 rfl (by decide)⟩

/-- Counterexample to claim C9 as stated: a `POST /frames` whose
`frame_id` already exists but whose referenced episode does not is
rejected with 404 (Not Found), not with 409 (Conflict), because the
route checks episode existence before the duplicate-id check. -/
theorem c9_frame_dup_counterexample :
    ([(⟨"f1", "e1", 5, some "k", none, none, none, 0, 0⟩ : FrameDoc)].any
        (fun f => f.frame_id == "f1") = true) ∧
    (createFrame [⟨"f1", "e1", 5, some "k", none, none, none, 0, 0⟩] [] "gen" 7
        ⟨some "f1", "missing", 9, some "k2", none, none⟩).1.status ≠ 409 := by
  decide

/-- Claim C9 (amended): creating an episode with an existing
`episode_id` is rejected with 409; creating a frame with an existing
`frame_id` is rejected with 409 when the referenced episode exists, and
with 404 when it does not; in every case the stored documents are left
unchanged — no overwrite, no insert. -/
theorem c9_duplicate_id_rejected (epDb : List EpisodeDoc) (frDb : List FrameDoc)
    (genId : String) (embed : String → Except String (List ℚ)) (now : Nat)
    (einp : CreateEpisodeInput) (finp fmiss : CreateFrameInput)
    (h1 : epDb.any (fun ep => ep.episode_id == einp.episode_id.getD genId) = true)
    (h2 : epDb.any (fun ep => ep.episode_id == finp.episode_id) = true)
    (h3 : frDb.any (fun f => f.frame_id == finp.frame_id.getD genId) = true)
    (h4 : epDb.any (fun ep => ep.episode_id == fmiss.episode_id) = false) :
    createEpisode epDb genId embed now einp =
      (.conflict "Episode with this episode_id already exists", epDb) ∧
    createFrame frDb epDb genId now finp =
      (.conflict "Frame with this frame_id already exists", frDb, epDb) ∧
    createFrame frDb epDb genId now fmiss = (.notFound "Episode not found", frDb, epDb) ∧
    (createEpisode epDb genId embed now einp).1.status = 409 ∧
    (createFrame frDb epDb genId now finp).1.status = 409 ∧
    (createFrame frDb epDb genId now fmiss).1.status = 404 := by
  simp [createEpisode, createFrame, h1, h2, h3, h4, CreateResponse.status]

/-- Witness for C9 (amended) at a concrete store. -/
theorem c9_duplicate_id_rejected_w :
    ([(⟨"e1", 0, 1, "t", "s", Tags.empty, [], none, 0, 0⟩ : EpisodeDoc)].any
        (fun ep => ep.episode_id ==
          (CreateEpisodeInput.mk (some "e1") 0 1 "t" "s" none none).episode_id.getD "gen") =
      true) ∧
    ([(⟨"e1", 0, 1, "t", "s", Tags.empty, [], none, 0, 0⟩ : EpisodeDoc)].any
        (fun ep => ep.episode_id ==
          (CreateFrameInput.mk (some "f1") "e1" 5 (some "k") none none).episode_id) = true) ∧
    ([(⟨"f1", "e1", 5, some "k", none, none, none, 0, 0⟩ : FrameDoc)].any
        (fun f => f.frame_id ==
          (CreateFrameInput.mk (some "f1") "e1" 5 (some "k") none none).frame_id.getD "gen") =
      true) ∧
    ([(⟨"e1", 0, 1, "t", "s", Tags.empty, [], none, 0, 0⟩ : EpisodeDoc)].any
        (fun ep => ep.episode_id ==
          (CreateFrameInput.mk (some "f9") "e404" 5 (some "k") none none).episode_id) = false) ∧
    (createEpisode [⟨"e1", 0, 1, "t", "s", Tags.empty, [], none, 0, 0⟩] "gen"
        (fun _ => .ok [(1 : ℚ)]) 7 ⟨some "e1", 0, 1, "t", "s", none, none⟩ =
      (.conflict "Episode with this episode_id already exists",
        [⟨"e1", 0, 1, "t", "s", Tags.empty, [], none, 0, 0⟩]) ∧
    createFrame [⟨"f1", "e1", 5, some "k", none, none, none, 0, 0⟩]
        [⟨"e1", 0, 1, "t", "s", Tags.empty, [], none, 0, 0⟩] "gen" 7
        ⟨some "f1", "e1", 5, some "k", none, none⟩ =
      (.conflict "Frame with this frame_id already exists",
        [⟨"f1", "e1", 5, some "k", none, none, none, 0, 0⟩],
        [⟨"e1", 0, 1, "t", "s", Tags.empty, [], none, 0, 0⟩]) ∧
    createFrame [⟨"f1", "e1", 5, some "k", none, none, none, 0, 0⟩]
        [⟨"e1", 0, 1, "t", "s", Tags.empty, [], none, 0, 0⟩] "gen" 7
        ⟨some "f9", "e404", 5, some "k", none, none⟩ =
      (.notFound "Episode not found",
        [⟨"f1", "e1", 5, some "k", none, none, none, 0, 0⟩],
        [⟨"e1", 0, 1, "t", "s", Tags.empty, [], none, 0, 0⟩]) ∧
    (createEpisode [⟨"e1", 0, 1, "t", "s", Tags.empty, [], none, 0, 0⟩] "gen"
        (fun _ => .ok [(1 : ℚ)]) 7 ⟨some "e1", 0, 1, "t", "s", none, none⟩).1.status = 409 ∧
    (createFrame [⟨"f1", "e1", 5, some "k", none, none, none, 0, 0⟩]
        [⟨"e1", 0, 1, "t", "s", Tags.empty, [], none, 0, 0⟩] "gen" 7
        ⟨some "f1", "e1", 5, some "k", none, none⟩).1.status = 409 ∧
    (createFrame [⟨"f1", "e1", 5, some "k", none, none, none, 0, 0⟩]
        [⟨"e1", 0, 1, "t", "s", Tags.empty, [], none, 0, 0⟩] "gen" 7
        ⟨some "f9", "e404", 5, some "k", none, none⟩).1.status = 404) :=
  ⟨rfl, rfl, rfl, rfl, c9_duplicate_id_rejected _ _ "gen" _ 7 _ _ _ rfl rfl rfl rfl⟩

/-- Claim C10: if the embedding call throws during `POST /episodes` (and
the id is fresh, which is the only way the embedding step is reached),
the episode is still created with a 201 response, stored with
`text_embedding = null` and every other field exactly as supplied
(optional `tags` and `frame_ids` defaulting to `{}` and `[]`). -/
theorem c10_embed_failure_absorbed (db : List EpisodeDoc) (genId : String)
    (embed : String → Except String (List ℚ)) (now : Nat)
    (einp : CreateEpisodeInput) (msg : String)
    (hdup : db.any (fun ep => ep.episode_id == einp.episode_id.getD genId) = false)
    (hemb : embed (einp.title ++ "\n\n" ++ einp.summary_text) = .error msg) :
    createEpisode db genId embed now einp =
      (.created (einp.episode_id.getD genId),
        db ++ [⟨einp.episode_id.getD genId, einp.start_ts, einp.end_ts, einp.title,
          einp.summary_text, einp.tags.getD Tags.empty, einp.frame_ids.getD [], none, now, now⟩]) ∧
    (createEpisode db genId embed now einp).1.status = 201 := by
  simp [createEpisode, hdup, hemb, CreateResponse.status]

/-- Witness for C10: a concrete creation whose embedding call fails. -/
theorem c10_embed_failure_absorbed_w :
    (([] : List EpisodeDoc).any
        (fun ep => ep.episode_id ==
          (CreateEpisodeInput.mk (some "e1") 3 9 "t" "s" none none).episode_id.getD "gen") =
      false) ∧
    (fun (_ : String) => (Except.error "RateLimited" : Except String (List ℚ)))
        ((CreateEpisodeInput.mk (some "e1") 3 9 "t" "s" none none).title ++ "\n\n" ++
          (CreateEpisodeInput.mk (some "e1") 3 9 "t" "s" none none).summary_text) =
      .error "RateLimited" ∧
    (createEpisode [] "gen" (fun _ => .error "RateLimited") 7 ⟨some "e1", 3, 9, "t", "s", none, none⟩ =
      (.created "e1", [⟨"e1", 3, 9, "t", "s", Tags.empty, [], none, 7, 7⟩]) ∧
    (createEpisode [] "gen" (fun _ => .error "RateLimited") 7
        ⟨some "e1", 3, 9, "t", "s", none, none⟩).1.status = 201) :=
  ⟨rfl, rfl, c10_embed_failure_absorbed _ "gen" _ 7 _ _ rfl rfl⟩

end W24h
